import Mathlib

/-!
Verification development for the servio control plane (Go sources under
internal/ and cmd/).  The Go code is shallowly embedded: pure functions become
Lean functions on the same data; handlers and installers that perform side
effects become functions from explicit outcome records ("worlds") to traces of
attempted actions and final states.  Machine integers are modelled as Nat/Int
(uint64 arithmetic carries an explicit % 2^64 where overflow matters), and the
standard-library JSON decoder used by the django blueprint is abstracted as a
decoder parameter, since encoding/json is outside the repository.
-/

namespace Servio

/-- Characters Go `unicode.IsSpace` accepts (the White_Space table: ASCII
spaces, NEL, NBSP and the Unicode space separators), by code point. -/
def goIsSpace (c : Char) : Bool :=
  c.toNat = 0x20 || c.toNat = 0x09 || c.toNat = 0x0a || c.toNat = 0x0b ||
  c.toNat = 0x0c || c.toNat = 0x0d || c.toNat = 0x85 || c.toNat = 0xa0 ||
  c.toNat = 0x1680 || (0x2000 ≤ c.toNat && c.toNat ≤ 0x200a) ||
  c.toNat = 0x2028 || c.toNat = 0x2029 || c.toNat = 0x202f ||
  c.toNat = 0x205f || c.toNat = 0x3000

/-- Go `strings.TrimSpace`: drop leading and trailing white space. -/
def goTrimSpace (s : String) : String :=
  ⟨((s.data.dropWhile goIsSpace).reverse.dropWhile goIsSpace).reverse⟩

/-- Accumulator loop behind `goFields`: splits a character list into maximal
runs of non-space characters (`cur` is the current run, reversed). -/
def goFieldsAux : List Char → List Char → List (List Char)
  | [], cur => if cur.isEmpty then [] else [cur.reverse]
  | c :: rest, cur =>
    if goIsSpace c then
      if cur.isEmpty then goFieldsAux rest [] else cur.reverse :: goFieldsAux rest []
    else goFieldsAux rest (c :: cur)

/-- Go `strings.Fields`: white-space separated tokens of a string. -/
def goFields (s : String) : List String :=
  (goFieldsAux s.data []).map (fun l => ⟨l⟩)

/-- Go `strings.HasPrefix`. -/
def goStartsWith (s pre : String) : Bool :=
  pre.data.isPrefixOf s.data

/-- Split a character list at every occurrence of a separator character
(`cur` is the current chunk, reversed). -/
def splitOnCharAux (sep : Char) : List Char → List Char → List (List Char)
  | [], cur => [cur.reverse]
  | c :: rest, cur =>
    if c = sep then cur.reverse :: splitOnCharAux sep rest []
    else splitOnCharAux sep rest (c :: cur)

/-- Go `strings.Split` with a one-character separator (the only separators
the embedded code uses are "/" and a newline). -/
def goSplitOnChar (s : String) (sep : Char) : List String :=
  (splitOnCharAux sep s.data []).map (fun l => ⟨l⟩)

/-- Substring search on character lists (an empty pattern always matches). -/
def listContainsSub : List Char → List Char → Bool
  | _, [] => true
  | [], _ :: _ => false
  | c :: rest, p :: ps =>
    ((p :: ps).isPrefixOf (c :: rest)) || listContainsSub rest (p :: ps)

/-- Go `strings.Contains`. -/
def goContains (s sub : String) : Bool :=
  listContainsSub s.data sub.data

/-- Replace the first occurrence of a (non-empty) pattern in a character
list; the list is returned unchanged when the pattern does not occur. -/
def replaceFirstAux (pat new : List Char) : List Char → List Char
  | [] => []
  | c :: rest =>
    if pat.isPrefixOf (c :: rest) then new ++ (c :: rest).drop pat.length
    else c :: replaceFirstAux pat new rest

/-- Go `strings.Replace(s, old, new, 1)`: replace the first occurrence; with
an empty `old`, Go inserts `new` before the first rune. -/
def goReplaceFirst (s old new : String) : String :=
  if old = "" then new ++ s
  else ⟨replaceFirstAux old.data new.data s.data⟩

/-- Go `path/filepath.Clean` for unix paths: resolve `.` and `..` elements
lexically, collapse separators (the standard Plan9 cleaning algorithm). -/
def goFilepathClean (p : String) : String :=
  if p = "" then "."
  else
    let rooted := goStartsWith p "/"
    let comps := (goSplitOnChar p '/').filter (fun c => c ≠ "" && c ≠ ".")
    let stack := comps.foldl
      (fun st c =>
        if c = ".." then
          if st ≠ [] && st.getLast? ≠ some ".." then st.dropLast
          else if rooted then st else st ++ [".."]
        else st ++ [c]) ([] : List String)
    if rooted then "/" ++ String.intercalate "/" stack
    else if stack = [] then "." else String.intercalate "/" stack

/-- Go `path/filepath.Join` on a list of elements: drop empty elements, join
with `/`, then clean; all-empty input yields the empty string. -/
def goFilepathJoinList (elems : List String) : String :=
  let nonEmpty := elems.filter (fun e => e ≠ "")
  if nonEmpty.isEmpty then "" else goFilepathClean (String.intercalate "/" nonEmpty)

/-- Go `filepath.Join(a, b)`. -/
def goFilepathJoin (a b : String) : String :=
  goFilepathJoinList [a, b]

/-- Go `filepath.Base`: the last element of the path after stripping trailing
slashes; `"."` for the empty path, `"/"` for all-separator paths. -/
def goFilepathBase (p : String) : String :=
  if p = "" then "."
  else
    let stripped := (p.data.reverse.dropWhile (fun c => c = '/')).reverse
    if stripped.isEmpty then "/"
    else ⟨(stripped.reverse.takeWhile (fun c => c ≠ '/')).reverse⟩

/-! ## Data model (internal/storage/models.go)

Timestamps are omitted: no claim mentions them.  `Status` is the runtime
field the API handlers fill in. -/

structure Service where
  id : Int
  projectID : Int
  name : String
  serviceType : String
  version : String
  port : Int
  gitRepoURL : String
  command : String
  workingDir : String
  user : String
  environment : String
  autoRestart : Bool
  config : String
  systemdRaw : String
  nginxRaw : String
  status : String
  deriving DecidableEq

/-- `(*Service).ServiceName` from internal/storage/models.go. -/
def Service.unitName (s : Service) : String :=
  "servio-" ++ s.name ++ ".service"

structure Project where
  id : Int
  name : String
  description : String
  domain : String
  nginxRaw : String
  services : List Service
  deriving DecidableEq

/-! ## Blueprints (internal/blueprints)

Only the capabilities the verified code paths consume are modelled
(`Type`, `GenerateCommand`, `GenerateEnvironment`, `GenerateSystemdOverrides`);
`Metadata`, `Defaults` and `InstallDependencies` serve the UI and the package
manager and are not touched by any claim. -/

/-- Django config decoded from the service `config` JSON
(blueprints/django.go, `DjangoConfig`). -/
structure DjangoConfig where
  wsgiModule : String
  workers : Int
  bindAddress : String
  venvPath : String
  requirements : String
  deriving DecidableEq

/-- Abstraction of `encoding/json.Unmarshal` into a pre-filled
`DjangoConfig`: given the raw JSON text and the defaults already in the
struct, produce the decoded struct (on decode failure Go leaves the defaults
in place, which the identity decoder models). -/
def DjangoDecoder := String → DjangoConfig → DjangoConfig

/-- The trivial decoder instance: every decode leaves the pre-filled struct
unchanged (Go behaviour on an unparsable or empty JSON object). -/
def decodeNothing : DjangoDecoder := fun _ cfg => cfg

def djangoDefaultWorkers : Int := 2
def djangoDefaultBind : String := "0.0.0.0:8000"

/-- `(*DjangoBlueprint).parseConfig`: start from the defaults and decode the
service `config` JSON over them when it is non-empty. -/
def djangoParseConfig (dec : DjangoDecoder) (s : Service) : DjangoConfig :=
  let cfg : DjangoConfig :=
    { wsgiModule := "app.wsgi:application"
      workers := djangoDefaultWorkers
      bindAddress := djangoDefaultBind
      venvPath := ""
      requirements := "" }
  if s.config ≠ "" then dec s.config cfg else cfg

/-- `(*DjangoBlueprint).GenerateCommand`: gunicorn invocation; the venv, when
set, supplies the gunicorn path.  (The Go function also computes a working
directory default that its result never uses; it is reproduced here.) -/
def djangoGenerateCommand (dec : DjangoDecoder) (s : Service) : String :=
  let cfg := djangoParseConfig dec s
  let _workDir := if s.workingDir = "" then "/var/www/app" else s.workingDir
  let gunicornPath :=
    if cfg.venvPath ≠ "" then goFilepathJoinList [cfg.venvPath, "bin", "gunicorn"]
    else "gunicorn"
  let workers := if cfg.workers ≤ 0 then djangoDefaultWorkers else cfg.workers
  gunicornPath ++ " --workers " ++ toString workers ++ " --bind " ++
    cfg.bindAddress ++ " " ++ cfg.wsgiModule

/-- `(*DjangoBlueprint).GenerateEnvironment`. -/
def djangoGenerateEnvironment (dec : DjangoDecoder) (s : Service) : String :=
  let cfg := djangoParseConfig dec s
  let env := "DJANGO_SETTINGS_MODULE=app.settings\n" ++
    "PYTHONDONTWRITEBYTECODE=1\n" ++ "PYTHONUNBUFFERED=1\n"
  if cfg.venvPath ≠ "" then
    env ++ "VIRTUAL_ENV=" ++ cfg.venvPath ++ "\n" ++
      "PATH=" ++ cfg.venvPath ++ "/bin:$PATH\n"
  else env

/-- `(*DjangoBlueprint).GenerateSystemdOverrides` (a constant). -/
def djangoGenerateSystemdOverrides (_s : Service) : String :=
  "[Service]\nType=notify\nKillMode=mixed\nTimeoutStopSec=5"

/-- The blueprint capability record consumed by the unit synthesizer and the
HTTP handlers. -/
structure Blueprint where
  typeName : String
  generateCommand : Service → String
  generateEnvironment : Service → String
  generateSystemdOverrides : Service → String

/-- The django blueprint instance, parametrized by the JSON decoder. -/
def djangoBlueprint (dec : DjangoDecoder) : Blueprint :=
  { typeName := "django"
    generateCommand := djangoGenerateCommand dec
    generateEnvironment := djangoGenerateEnvironment dec
    generateSystemdOverrides := djangoGenerateSystemdOverrides }

/-- Blueprint registry: a map from type string to blueprint
(blueprint.go, `Registry`). -/
structure Registry where
  blueprints : List (String × Blueprint)

/-- `(*Registry).Register`: map assignment (overwrites an existing key). -/
def Registry.register (r : Registry) (bp : Blueprint) : Registry :=
  ⟨(bp.typeName, bp) :: r.blueprints.filter (fun e => e.1 ≠ bp.typeName)⟩

/-- `(*Registry).Get`. -/
def Registry.get (r : Registry) (serviceType : String) : Option Blueprint :=
  r.blueprints.lookup serviceType

/-- `(*Registry).IsManaged`. -/
def Registry.isManaged (r : Registry) (serviceType : String) : Bool :=
  (r.get serviceType).isSome

/-- `NewRegistry` (blueprint.go lines 63-77): the registry built at startup.
Its body registers only the django blueprint; `PostgresBlueprint` and
`RedisBlueprint` exist in the source tree but no `Register` call mentions
them (the commented-out lines name MongoDB and Node instead). -/
def newRegistry (dec : DjangoDecoder) : Registry :=
  (Registry.mk []).register (djangoBlueprint dec)

/-! ## Unit synthesizer (internal/systemd/generator.go lines 17-168)

The generator is pure; it is split into the helper values its body computes
(`blueprintResolve` for lines 24-62, `resolveExecCommand` for lines 94-104)
so that claims about the effective ExecStart command can name them. -/

/-- The systemd manager's blueprint handle (`m.blueprints`, possibly nil). -/
structure SdManager where
  blueprints : Option Registry

/-- Lines 24-62 of `GenerateServiceFile`: decide whether a blueprint is in
effect and produce the pre-resolution command, the merged environment and the
blueprint systemd overrides.  (All registry entries implement the three
generator methods, so the Go type assertion always succeeds.) -/
def blueprintResolve (m : SdManager) (svc : Service) :
    Bool × String × String × String :=
  match m.blueprints with
  | some reg =>
    if svc.serviceType ≠ "" then
      match reg.get svc.serviceType with
      | some bp =>
        let command := if svc.command = "" then bp.generateCommand svc else svc.command
        let blueprintEnv := bp.generateEnvironment svc
        let environment :=
          if blueprintEnv ≠ "" then
            if svc.environment ≠ "" then blueprintEnv ++ "\n" ++ svc.environment
            else blueprintEnv
          else svc.environment
        (true, command, environment, bp.generateSystemdOverrides svc)
      | none => (false, svc.command, svc.environment, "")
    else (false, svc.command, svc.environment, "")
  | none => (false, svc.command, svc.environment, "")

/-- Lines 70-73: `working_dir` defaults to `/`. -/
def effectiveWorkingDir (svc : Service) : String :=
  if svc.workingDir = "" then "/" else svc.workingDir

/-- Lines 80-90: one `Environment="..."` line per non-blank line containing
an `=` in the merged environment text. -/
def buildEnvSection (environment : String) : String :=
  if environment = "" then ""
  else
    ((goSplitOnChar environment '\n').map goTrimSpace).foldl
      (fun acc line =>
        if line ≠ "" && goContains line "=" then
          acc ++ "Environment=\"" ++ line ++ "\"\n"
        else acc) ""

/-- Lines 94-104: when the first field of the command is not an absolute path
and no blueprint is in effect, replace its first occurrence by
`filepath.Join(workingDir, exe)`. -/
def resolveExecCommand (hasBlueprint : Bool) (workingDir command : String) : String :=
  match goFields command with
  | [] => command
  | exe :: _ =>
    if !goStartsWith exe "/" && !hasBlueprint then
      goReplaceFirst command exe (goFilepathJoin workingDir exe)
    else command

/-- The command that ends up after `ExecStart=` for a non-raw service. -/
def effectiveExecCommand (m : SdManager) (svc : Service) : String :=
  let r := blueprintResolve m svc
  resolveExecCommand r.1 (effectiveWorkingDir svc) r.2.1

/-- The unit-file layout used when blueprint overrides are present
(generator.go lines 110-132): the override block replaces the default
`[Service]` header lines. -/
def unitTemplateOverrides (name overrides command restart envSection : String) :
    String :=
  "[Unit]\nDescription=Managed Service: " ++ name ++
    "\nAfter=network.target\n\n" ++ overrides ++
    "\nExecStart=" ++ command ++ "\nRestart=" ++ restart ++
    "\nRestartSec=5\nStandardOutput=journal\nStandardError=journal" ++
    "\nSyslogIdentifier=" ++ ("servio-" ++ name) ++ "\n" ++ envSection ++
    "\n\n[Install]\nWantedBy=multi-user.target\n"

/-- The standard unit-file layout (generator.go lines 137-165). -/
def unitTemplateStandard (name user workingDir command restart envSection : String) :
    String :=
  "[Unit]\nDescription=" ++ ("Managed Service: " ++ name) ++
    "\nAfter=network.target\n\n[Service]\nType=simple\nUser=" ++ user ++
    "\nWorkingDirectory=" ++ workingDir ++
    "\nExecStart=" ++ command ++ "\nRestart=" ++ restart ++
    "\nRestartSec=5\nStandardOutput=journal\nStandardError=journal" ++
    "\nSyslogIdentifier=" ++ ("servio-" ++ name) ++ "\n" ++ envSection ++
    "\n\n[Install]\nWantedBy=multi-user.target\n"

/-- `(*Manager).GenerateServiceFile` (generator.go lines 17-168). -/
def generateServiceFile (m : SdManager) (svc : Service) : String :=
  if svc.systemdRaw ≠ "" then svc.systemdRaw
  else
    let r := blueprintResolve m svc
    let hasBlueprint := r.1
    let command0 := r.2.1
    let environment := r.2.2.1
    let systemdOverrides := r.2.2.2
    let restart := if svc.autoRestart then "on-failure" else "no"
    let workingDir := effectiveWorkingDir svc
    let user := if svc.user = "" then "root" else svc.user
    let envSection := buildEnvSection environment
    let command := resolveExecCommand hasBlueprint workingDir command0
    if systemdOverrides ≠ "" then
      unitTemplateOverrides svc.name systemdOverrides command restart envSection
    else
      unitTemplateStandard svc.name user workingDir command restart envSection

/-! ## Supervisor adapter: UninstallService (generator.go lines 241-254)

Outcomes of the external steps are inputs; the model records which steps the
function attempted and the error it returns. -/

/-- Outcome of `os.Remove` on the unit file. -/
inductive RemoveOutcome where
  | ok
  | enoent
  | failed (msg : String)
  deriving DecidableEq

/-- Outcomes the host presents to one `UninstallService` call. -/
structure UninstallWorld where
  stopErr : Option String
  disableErr : Option String
  removeRes : RemoveOutcome
  reloadErr : Option String
  deriving DecidableEq

/-- Which steps ran, and the returned error (none = success). -/
structure UninstallRun where
  stopAttempted : Bool
  disableAttempted : Bool
  removeAttempted : Bool
  reloadAttempted : Bool
  result : Option String
  deriving DecidableEq

/-- `(*Manager).UninstallService`: best-effort stop and disable (errors
discarded), remove the unit file (ENOENT tolerated; any other error returns
immediately), then reload. -/
def uninstallService (w : UninstallWorld) (_serviceName : String) : UninstallRun :=
  match w.removeRes with
  | .failed msg =>
    { stopAttempted := true, disableAttempted := true, removeAttempted := true
      reloadAttempted := false
      result := some ("failed to remove service file: " ++ msg) }
  | _ =>
    { stopAttempted := true, disableAttempted := true, removeAttempted := true
      reloadAttempted := true
      result := w.reloadErr }

/-! ## Site synthesizer (internal/nginx/manager.go)

Braces inside nginx text are written with hex escapes. -/

structure NginxManager where
  sitesAvailableDir : String
  sitesEnabledDir : String
  deriving DecidableEq

/-- `NewManager` (manager.go lines 41-47). -/
def nginxNewManager : NginxManager :=
  { sitesAvailableDir := "/etc/nginx/conf.d", sitesEnabledDir := "" }

/-- `(*Manager).Configure` (manager.go lines 50-60). -/
def nginxConfigure (distro : String) : NginxManager :=
  if distro = "ubuntu" || distro = "debian" then
    { sitesAvailableDir := "/etc/nginx/sites-available"
      sitesEnabledDir := "/etc/nginx/sites-enabled" }
  else
    { sitesAvailableDir := "/etc/nginx/conf.d", sitesEnabledDir := "" }

/-- `sanitizeName` (manager.go lines 250-261): lowercase, spaces to hyphens,
keep only `[a-z0-9-]`. -/
def sanitizeName (name : String) : String :=
  let lowered := (name.data.map Char.toLower).map (fun c => if c = ' ' then '-' else c)
  ⟨lowered.filter (fun c =>
    (('a' ≤ c && c ≤ 'z') || ('0' ≤ c && c ≤ '9') || c = '-'))⟩

/-- `(*Manager).SiteConfigPath`. -/
def siteConfigPath (m : NginxManager) (p : Project) : String :=
  goFilepathJoin m.sitesAvailableDir
    ("servio-" ++ toString p.id ++ "-" ++ sanitizeName p.name ++ ".conf")

/-- The per-service upstream comment and server line the generator builds
(manager.go lines 86-87).  The surrounding loop appends these to a local
`upstreams` slice that the final `Sprintf` never consumes. -/
def upstreamEntry (svc : Service) : String :=
  "    # " ++ svc.name ++ "\n    server 127.0.0.1:" ++ toString svc.port ++ ";"

/-- The loop of lines 81-94: primaryPort is set by the first service (in
stored order) with a positive port and not changed afterwards. -/
def primaryPortLoop (services : List Service) : Int :=
  services.foldl (fun pp svc => if svc.port > 0 && pp = 0 then svc.port else pp) 0

/-- Lines 91-94: fall back to 8000 when no service has a port. -/
def primaryPortOf (services : List Service) : Int :=
  let pp := primaryPortLoop services
  if pp = 0 then 8000 else pp

/-- The `location /` proxy block (lines 97-107). -/
def proxyLocation (primaryPort : Int) : String :=
  "    location / \x7b\n        proxy_pass http://127.0.0.1:" ++
  toString primaryPort ++ ";\n" ++
  "        proxy_http_version 1.1;\n" ++
  "        proxy_set_header Host $host;\n" ++
  "        proxy_set_header X-Real-IP $remote_addr;\n" ++
  "        proxy_set_header X-Forwarded-For $proxy_add_x_forwarded_for;\n" ++
  "        proxy_set_header X-Forwarded-Proto $scheme;\n" ++
  "        proxy_set_header Upgrade $http_upgrade;\n" ++
  "        proxy_set_header Connection \"upgrade\";\n" ++
  "        proxy_read_timeout 86400;\n    \x7d"

/-- The `/static/` block (lines 110-114). -/
def staticLocation : String :=
  "    location /static/ \x7b\n        alias /var/www/static/;\n" ++
  "        expires 30d;\n" ++
  "        add_header Cache-Control \"public, immutable\";\n    \x7d"

/-- The fixed site-config text up to the services section (manager.go lines
116-130 of the format string, with the project name and domain filled in). -/
def siteConfigHeader (p : Project) : String :=
  "# Managed by Servio - Project: " ++ p.name ++
  "\n# Generated: Do not edit manually, changes will be overwritten\n\n" ++
  "server \x7b\n    listen 80;\n    server_name " ++ p.domain ++ ";\n\n" ++
  "    # Security headers\n" ++
  "    add_header X-Frame-Options \"SAMEORIGIN\" always;\n" ++
  "    add_header X-Content-Type-Options \"nosniff\" always;\n\n" ++
  "    # Logging\n" ++
  "    access_log /var/log/nginx/" ++ p.name ++ ".access.log;\n" ++
  "    error_log /var/log/nginx/" ++ p.name ++ ".error.log;\n\n"

/-- The fixed error-pages trailer of the site config (lines 133-139). -/
def siteConfigTail : String :=
  "\n\n    # Error pages\n    error_page 502 503 504 /50x.html;\n" ++
  "    location = /50x.html \x7b\n        root /usr/share/nginx/html;\n    \x7d\n\x7d\n"

set_option linter.unusedVariables false in
/-- `(*Manager).GenerateDefaultConfig` (manager.go lines 70-142).  The
`upstreams` slice is built exactly as in the source and, exactly as in the
source, does not flow into the returned text. -/
def generateDefaultConfig (p : Project) : Except String String :=
  if p.domain = "" then .error "project has no domain configured"
  else
    let upstreams := (p.services.filter (fun s => s.port > 0)).map upstreamEntry
    let primaryPort := primaryPortOf p.services
    let locations := [proxyLocation primaryPort, staticLocation]
    .ok (siteConfigHeader p ++ String.intercalate "\n\n" locations ++ siteConfigTail)

/-- `(*Manager).GenerateSiteConfig` (lines 62-68): the project raw override
wins when non-empty. -/
def generateSiteConfig (p : Project) : Except String String :=
  if p.nginxRaw ≠ "" then .ok p.nginxRaw
  else generateDefaultConfig p

/-! ### InstallSite (manager.go lines 150-194)

The filesystem is a duplicate-free list of present paths; external command
outcomes are inputs. -/

/-- File-set insert (write creates or overwrites). -/
def fsAdd (fs : List String) (f : String) : List String :=
  if fs.contains f then fs else f :: fs

/-- File-set delete (`os.Remove`, all occurrences). -/
def fsRemove (fs : List String) (f : String) : List String :=
  fs.filter (fun g => g ≠ f)

/-- Outcomes the host presents to one `InstallSite` call: mkdir, write and
symlink errors, the config-test result (`some output` = non-zero exit with
that combined output) and the reload result. -/
structure SiteWorld where
  mkdirErr : Option String
  writeErr : Option String
  symlinkErr : Option String
  testErr : Option String
  reloadErr : Option String
  deriving DecidableEq

/-- Final state of one `InstallSite` call: the files present afterwards,
whether the nginx reload was attempted, and the returned error. -/
structure SiteApplyResult where
  files : List String
  reloadAttempted : Bool
  err : Option String
  deriving DecidableEq

/-- `(*Manager).InstallSite`: generate, mkdir, write, (symlink), test with
rollback of the written file, reload.  On test failure only `configPath` is
removed — the sites-enabled symlink is left in place — and the reload is not
attempted. -/
def installSite (m : NginxManager) (w : SiteWorld) (p : Project)
    (fs0 : List String) : SiteApplyResult :=
  match generateSiteConfig p with
  | .error e => ⟨fs0, false, some ("failed to generate config: " ++ e)⟩
  | .ok _config =>
    let configPath := siteConfigPath m p
    match w.mkdirErr with
    | some e => ⟨fs0, false, some ("failed to create config directory: " ++ e)⟩
    | none =>
    match w.writeErr with
    | some e => ⟨fs0, false, some ("failed to write config: " ++ e)⟩
    | none =>
      let fs1 := fsAdd fs0 configPath
      let enabledPath := goFilepathJoin m.sitesEnabledDir (goFilepathBase configPath)
      let step :=
        if m.sitesEnabledDir ≠ "" then
          let fsR := fsRemove fs1 enabledPath
          match w.symlinkErr with
          | some e => (fsR, some e)
          | none => (fsAdd fsR enabledPath, (none : Option String))
        else (fs1, none)
      match step.2 with
      | some e => ⟨step.1, false, some ("failed to create symlink: " ++ e)⟩
      | none =>
      match w.testErr with
      | some output =>
        ⟨fsRemove step.1 configPath, false,
          some ("nginx config test failed: config test failed: " ++ output)⟩
      | none =>
      match w.reloadErr with
      | some e => ⟨step.1, true, some ("failed to reload nginx: " ++ e)⟩
      | none => ⟨step.1, true, none⟩

/-! ## Monitor (internal/monitor, `getLinuxServiceStats`)

`GetStats` dispatches on GOOS; on linux hosts the per-unit loop below runs.
The `serviceCPUMap` cache is threaded explicitly; observation times are the
`time.Now()` values in nanoseconds (Int, as `Duration.Nanoseconds` is int64),
cumulative CPU nanoseconds are uint64 (Nat reduced mod 2^64 on subtraction). -/

/-- The parsed fields of one `systemctl show` query for a unit. -/
structure UnitQuery where
  cpuNS : Nat
  memBytes : Nat
  activeState : String
  time : Int
  deriving DecidableEq

/-- One per-unit sample as returned to the caller. -/
structure ServiceStat where
  memoryUsage : ℚ
  cpuUsage : ℚ
  activeState : String
  deriving DecidableEq

/-- The cache `serviceCPUMap`: unit name to (last cumulative ns, last time). -/
def CpuCache := List (String × Nat × Int)

/-- `sync.Map.Store`: overwrite the entry for the key. -/
def cpuCacheStore (c : CpuCache) (name : String) (ns : Nat) (t : Int) : CpuCache :=
  (name, ns, t) :: (c : List (String × Nat × Int)).filter (fun e => e.1 ≠ name)

/-- `sync.Map.Load`. -/
def cpuCacheLoad (c : CpuCache) (name : String) : Option (Nat × Int) :=
  (c : List (String × Nat × Int)).lookup name

/-- The body of the per-unit loop (part_005 lines 339-384) for one unit whose
query succeeded: derive the CPU percentage from the cached observation (0 on
a first observation or non-positive time delta), store the new observation,
convert memory to MB. -/
def observeUnit (cache : CpuCache) (name : String) (q : UnitQuery) :
    ServiceStat × CpuCache :=
  let cpuUsage : ℚ :=
    match cpuCacheLoad cache name with
    | some (lastNS, lastTime) =>
      let diffNS : Nat := (q.cpuNS + 2 ^ 64 - lastNS) % 2 ^ 64
      let diffTime : Int := q.time - lastTime
      if diffTime > 0 then ((diffNS : ℚ) / (diffTime : ℚ)) * 100 else 0
    | none => 0
  let cache2 := cpuCacheStore cache name q.cpuNS q.time
  ({ memoryUsage := (q.memBytes : ℚ) / 1024 / 1024
     cpuUsage := cpuUsage
     activeState := q.activeState }, cache2)

/-- `getLinuxServiceStats` over a list of units; `none` stands for a failed
`systemctl show` invocation, which the loop skips (`continue`). -/
def getLinuxServiceStats (cache : CpuCache)
    (units : List (String × Option UnitQuery)) :
    List (String × ServiceStat) × CpuCache :=
  units.foldl
    (fun acc u =>
      match u.2 with
      | none => acc
      | some q =>
        let r := observeUnit acc.2 u.1 q
        (acc.1 ++ [(u.1, r.1)], r.2))
    ([], cache)

/-! ## HTTP handlers (internal/http/handlers.go)

Handlers are modelled after persistence has succeeded; the side-effecting
supervisor calls they make become an explicit action list, and the outcomes
of those calls are inputs so that independence of the response from them is
expressible. -/

/-- The fields `(*Storage).UpdateService` writes (repository.go lines
223-236): note that `type` and `version` are not among them. -/
structure UpdateServiceRequest where
  name : String
  port : Int
  gitRepoURL : String
  command : String
  workingDir : String
  user : String
  environment : String
  autoRestart : Bool
  config : String
  systemdRaw : String
  nginxRaw : String
  deriving DecidableEq

/-- Effect of `UpdateService` on the stored row. -/
def applyUpdate (old : Service) (req : UpdateServiceRequest) : Service :=
  { old with
    name := req.name, port := req.port, gitRepoURL := req.gitRepoURL
    command := req.command, workingDir := req.workingDir, user := req.user
    environment := req.environment, autoRestart := req.autoRestart
    config := req.config, systemdRaw := req.systemdRaw, nginxRaw := req.nginxRaw }

/-- Supervisor calls a handler makes after persisting an update. -/
inductive UpdateAction where
  | installUnit (svc : Service)
  | restartUnit (unitName : String)
  deriving DecidableEq

/-- Responses the two update handlers can produce. -/
inductive HtResponse where
  | jsonOk (svc : Service)
  | seeOther (location : String)
  deriving DecidableEq

/-- `PUT /api/services/{id}` (handlers.go lines 518-530): persist the decoded
body, call `InstallService` with its result discarded, respond with the
updated record.  No restart, no blueprint command handling, and the install
outcome (`installErr`) does not influence the response. -/
def handleApiServicePut (old : Service) (req : UpdateServiceRequest)
    (installErr : Option String) :
    Service × List UpdateAction × HtResponse :=
  let svc := applyUpdate old req
  let _ := installErr
  (svc, [UpdateAction.installUnit svc], HtResponse.jsonOk svc)

/-- The form values the edit handler reads (handlers.go lines 725-765);
`config` is not among them — the update request carries `Config: ""`. -/
structure EditFormInput where
  name : String
  port : Int
  gitRepoURL : String
  command : String
  workingDir : String
  user : String
  environment : String
  autoRestart : Bool
  systemdRaw : String
  nginxRaw : String
  deriving DecidableEq

/-- `POST /services/{id}/edit` (handlers.go lines 725-792): when the old
service type has a blueprint, compare the submitted command against the
command the blueprint generates for the old record with only the submitted
port applied, and clear it on a match; persist; reinstall and restart with
both failures logged and the redirect response unaffected. -/
def handleServiceEditPost (r : Registry) (old : Service) (f : EditFormInput)
    (installErr restartErr : Option String) :
    Service × List UpdateAction × HtResponse :=
  let command :=
    match r.get old.serviceType with
    | some bp =>
      let tempSvc := { old with port := f.port }
      if f.command = bp.generateCommand tempSvc then "" else f.command
    | none => f.command
  let req : UpdateServiceRequest :=
    { name := f.name, port := f.port, gitRepoURL := f.gitRepoURL
      command := command, workingDir := f.workingDir, user := f.user
      environment := f.environment, autoRestart := f.autoRestart
      config := "", systemdRaw := f.systemdRaw, nginxRaw := f.nginxRaw }
  let svc := applyUpdate old req
  let _ := installErr
  let _ := restartErr
  (svc, [UpdateAction.installUnit svc, UpdateAction.restartUnit svc.unitName],
    HtResponse.seeOther ("/projects/" ++ toString svc.projectID))

/-- Status labelling of `GET /api/services/{id}` (handlers.go lines 506-516):
`active` is the supervisor `is-active` verdict, `fileExists` the
`ServiceExists` check on the unit file path. -/
def serviceStatusLabel (active fileExists : Bool) : String :=
  if active then "running" else if fileExists then "stopped" else "not installed"

/-- The record the GET handler returns: the stored service with its runtime
status field filled in. -/
def handleApiServiceGet (svc : Service) (active fileExists : Bool) : Service :=
  { svc with status := serviceStatusLabel active fileExists }

/-! ## Concrete fixtures used by witnesses and counterexamples -/

/-- A minimal service record; fixtures below adjust single fields. -/
def svc0 : Service :=
  { id := 1, projectID := 1, name := "web", serviceType := "", version := ""
    port := 0, gitRepoURL := "", command := "", workingDir := "", user := ""
    environment := "", autoRestart := false, config := "", systemdRaw := ""
    nginxRaw := "", status := "" }

/-- A project with a raw nginx override (site generation always succeeds). -/
def projRaw : Project :=
  { id := 1, name := "alpha", description := "", domain := ""
    nginxRaw := "server \x7b\x7d", services := [] }

/-- A project with a domain, one service on port 8080, and no raw override. -/
def projPorted : Project :=
  { id := 2, name := "beta", description := "", domain := "beta.example.com"
    nginxRaw := "", services := [{ svc0 with port := 8080 }] }

/-- The debian-style nginx manager layout. -/
def mgrDeb : NginxManager := nginxConfigure "debian"

/-- A site-apply world where every step succeeds except the config test. -/
def worldTestFail : SiteWorld :=
  { mkdirErr := none, writeErr := none, symlinkErr := none
    testErr := some "boom", reloadErr := none }

/-- The gunicorn command django generates for a service with empty config. -/
def djangoDefaultCommand : String :=
  "gunicorn --workers 2 --bind 0.0.0.0:8000 app.wsgi:application"

/-- A service whose operator supplied a raw systemd override. -/
def svcRaw : Service :=
  { svc0 with systemdRaw := "[Unit]\nDescription=operator override\n"
              command := "run.sh serve", autoRestart := true }

/-- A custom service with a relative command and a working directory. -/
def svcRel : Service :=
  { svc0 with serviceType := "custom", command := "run.sh serve"
              workingDir := "/opt/app" }

/-- A blueprint-managed service with empty command and config. -/
def svcDj : Service :=
  { svc0 with serviceType := "django" }

/-- A PUT body whose submitted command is exactly the blueprint generation
for the updated django service. -/
def reqPut : UpdateServiceRequest :=
  { name := "web", port := 9000, gitRepoURL := ""
    command := djangoDefaultCommand, workingDir := "", user := ""
    environment := "", autoRestart := false, config := ""
    systemdRaw := "", nginxRaw := "" }

/-- The same submission arriving through the HTML edit form. -/
def formPut : EditFormInput :=
  { name := "web", port := 9000, gitRepoURL := ""
    command := djangoDefaultCommand, workingDir := "", user := ""
    environment := "", autoRestart := true, systemdRaw := "", nginxRaw := "" }

/-! ## Helper lemmas -/

theorem mk_data_append (a b : String) : String.mk (a.data ++ b.data) = a ++ b := rfl

theorem resolveExec_of_blueprint (wd cmd : String) :
    resolveExecCommand true wd cmd = cmd := by
  unfold resolveExecCommand
  cases goFields cmd <;> simp

theorem blueprintResolve_of_none {m : SdManager} {svc : Service}
    (h : (blueprintResolve m svc).1 = false) :
    blueprintResolve m svc = (false, svc.command, svc.environment, "") := by
  unfold blueprintResolve at h ⊢
  cases hb : m.blueprints with
  | none => rfl
  | some reg =>
    simp only [hb] at h ⊢
    by_cases ht : svc.serviceType ≠ ""
    · simp only [if_pos ht] at h ⊢
      cases hg : reg.get svc.serviceType with
      | none => rfl
      | some bp => simp [hg] at h
    · simp [if_neg ht]

theorem newRegistry_get (dec : DjangoDecoder) (t : String) :
    (newRegistry dec).get t =
      if t = "django" then some (djangoBlueprint dec) else none := by
  unfold newRegistry Registry.get Registry.register djangoBlueprint
  simp [List.lookup]
  by_cases h : t = "django"
  · simp [h, djangoBlueprint]
  · have : (t == "django") = false := by simpa using h
    simp [this, h]

theorem goFieldsAux_mem_ne_nil :
    ∀ (s cur : List Char), ∀ w ∈ goFieldsAux s cur, w ≠ [] := by
  intro s
  induction s with
  | nil =>
    intro cur w hw
    cases cur with
    | nil => simp [goFieldsAux] at hw
    | cons d ds =>
      simp only [goFieldsAux, List.isEmpty_cons, if_false, Bool.false_eq_true,
        List.mem_singleton] at hw
      subst hw
      simp
  | cons c rest ih =>
    intro cur w hw
    by_cases hs : goIsSpace c
    · cases cur with
      | nil =>
        simp only [goFieldsAux, hs, if_true, List.isEmpty_nil] at hw
        exact ih [] w hw
      | cons d ds =>
        simp only [goFieldsAux, hs, if_true, List.isEmpty_cons,
          Bool.false_eq_true, if_false, List.mem_cons] at hw
        rcases hw with hw | hw
        · subst hw; simp
        · exact ih [] w hw
    · simp only [goFieldsAux, hs, Bool.false_eq_true, if_false] at hw
      exact ih (c :: cur) w hw

theorem goFields_head_ne_empty {s tok : String}
    (h : (goFields s).head? = some tok) : tok ≠ "" := by
  unfold goFields at h
  have hmem : tok ∈ (goFieldsAux s.data []).map (fun l => String.mk l) :=
    List.mem_of_mem_head? h
  rcases List.mem_map.mp hmem with ⟨l, hl, hlk⟩
  have hnil := goFieldsAux_mem_ne_nil s.data [] l hl
  intro hcon
  apply hnil
  rw [hcon] at hlk
  have := congrArg String.data hlk
  simpa using this.symm

theorem replaceFirstAux_at_head (pat new tail : List Char) (h : pat ≠ []) :
    replaceFirstAux pat new (pat ++ tail) = new ++ tail := by
  cases pat with
  | nil => exact absurd rfl h
  | cons p ps =>
    have hsh : (p :: ps) ++ tail = p :: (ps ++ tail) := rfl
    have hpre : (p :: ps).isPrefixOf (p :: (ps ++ tail)) = true := by
      rw [← hsh]
      simp [List.isPrefixOf_iff_prefix]
    rw [hsh]
    simp only [replaceFirstAux, hpre, if_true]
    rw [← hsh, List.drop_left]

theorem goReplaceFirst_at_head (tok rest new : String) (h : tok ≠ "") :
    goReplaceFirst (tok ++ rest) tok new = new ++ rest := by
  unfold goReplaceFirst
  rw [if_neg h]
  have htd : tok.data ≠ [] := by
    intro hnil
    apply h
    cases tok
    simp only at hnil
    subst hnil
    rfl
  rw [String.data_append, replaceFirstAux_at_head _ _ _ htd, ← String.data_append]

theorem cpuCacheLoad_store (c : CpuCache) (n : String) (ns : Nat) (t : Int) :
    cpuCacheLoad (cpuCacheStore c n ns t) n = some (ns, t) := by
  unfold cpuCacheLoad cpuCacheStore
  simp [List.lookup]

theorem fsRemove_not_mem (fs : List String) (f : String) :
    f ∉ fsRemove fs f := by
  simp [fsRemove]

theorem fsAdd_mem (fs : List String) (f : String) : f ∈ fsAdd fs f := by
  unfold fsAdd
  by_cases h : fs.contains f
  · rw [if_pos h]
    exact List.mem_of_elem_eq_true h
  · rw [if_neg h]
    exact List.mem_cons_self f fs

theorem fsRemove_mem_of_ne {g f : String} (h : g ≠ f) (fs : List String) :
    g ∈ fsRemove fs f ↔ g ∈ fs := by
  simp [fsRemove, h]

theorem primaryPortLoop_acc (l : List Service) (a : Int) (ha : a ≠ 0) :
    List.foldl (fun pp svc => if svc.port > 0 && pp = 0 then svc.port else pp) a l
      = a := by
  induction l generalizing a with
  | nil => rfl
  | cons s t ih =>
    rw [List.foldl_cons]
    have hc : (if s.port > 0 && a = 0 then s.port else a) = a := by
      have hd : decide (a = 0) = false := by simp [ha]
      simp [hd]
    rw [hc]
    exact ih a ha

theorem primaryPortLoop_eq (l : List Service) :
    primaryPortLoop l =
      (match l.find? (fun s => s.port > 0) with
        | some s => s.port
        | none => 0) := by
  unfold primaryPortLoop
  induction l with
  | nil => rfl
  | cons s t ih =>
    rw [List.foldl_cons, List.find?_cons]
    by_cases h : s.port > 0
    · have hd : decide (s.port > 0) = true := by simp [h]
      have hc : (if s.port > 0 && (0 : Int) = 0 then s.port else (0 : Int))
          = s.port := by simp [h]
      rw [hc]
      simp only [hd]
      exact primaryPortLoop_acc t s.port (by omega)
    · have hd : decide (s.port > 0) = false := by simp [h]
      have hc : (if s.port > 0 && (0 : Int) = 0 then s.port else (0 : Int))
          = 0 := by simp [h]
      rw [hc]
      simp only [hd]
      exact ih

theorem primaryPortOf_eq (l : List Service) :
    primaryPortOf l =
      (match l.find? (fun s => s.port > 0) with
        | some s => s.port
        | none => 8000) := by
  unfold primaryPortOf
  rw [primaryPortLoop_eq]
  cases hf : l.find? (fun s => s.port > 0) with
  | none => simp
  | some s =>
    have hp : s.port > 0 := by
      have := List.find?_some hf
      simpa using this
    simp [show ¬(s.port = 0) from by omega]

theorem generateDefaultConfig_ok (p : Project) (hdom : p.domain ≠ "") :
    generateDefaultConfig p =
      Except.ok (siteConfigHeader p ++
        (proxyLocation (primaryPortOf p.services) ++ "\n\n" ++ staticLocation) ++
        siteConfigTail) := by
  unfold generateDefaultConfig
  rw [if_neg hdom]
  rfl

/-- Characterization of `generateServiceFile` for non-raw services: the
selected template applied to the computed field values. -/
theorem generateServiceFile_eq (m : SdManager) (svc : Service)
    (hraw : svc.systemdRaw = "") :
    generateServiceFile m svc =
      if (blueprintResolve m svc).2.2.2 ≠ "" then
        unitTemplateOverrides svc.name (blueprintResolve m svc).2.2.2
          (effectiveExecCommand m svc)
          (if svc.autoRestart then "on-failure" else "no")
          (buildEnvSection (blueprintResolve m svc).2.2.1)
      else
        unitTemplateStandard svc.name
          (if svc.user = "" then "root" else svc.user)
          (effectiveWorkingDir svc) (effectiveExecCommand m svc)
          (if svc.autoRestart then "on-failure" else "no")
          (buildEnvSection (blueprintResolve m svc).2.2.1) := by
  unfold generateServiceFile effectiveExecCommand
  rw [if_neg (by simp [hraw])]

/-- Decomposition of the overrides template around its ExecStart line. -/
theorem unitTemplateOverrides_decomp (n o c r e : String) :
    unitTemplateOverrides n o c r e =
      ("[Unit]\nDescription=Managed Service: " ++ n ++
        "\nAfter=network.target\n\n" ++ o) ++
      ("\nExecStart=" ++ c ++ "\nRestart=") ++
      (r ++ "\nRestartSec=5\nStandardOutput=journal\nStandardError=journal" ++
        "\nSyslogIdentifier=" ++ ("servio-" ++ n) ++ "\n" ++ e ++
        "\n\n[Install]\nWantedBy=multi-user.target\n") := by
  simp [unitTemplateOverrides, String.append_assoc]

/-- Decomposition of the standard template around its ExecStart line. -/
theorem unitTemplateStandard_decomp (n u w c r e : String) :
    unitTemplateStandard n u w c r e =
      ("[Unit]\nDescription=" ++ ("Managed Service: " ++ n) ++
        "\nAfter=network.target\n\n[Service]\nType=simple\nUser=" ++ u ++
        "\nWorkingDirectory=" ++ w) ++
      ("\nExecStart=" ++ c ++ "\nRestart=") ++
      (r ++ "\nRestartSec=5\nStandardOutput=journal\nStandardError=journal" ++
        "\nSyslogIdentifier=" ++ ("servio-" ++ n) ++ "\n" ++ e ++
        "\n\n[Install]\nWantedBy=multi-user.target\n") := by
  simp [unitTemplateStandard, String.append_assoc]

/-- Every non-raw unit file contains its effective command between
`ExecStart=` and the `Restart=` line. -/
theorem generateServiceFile_execStart (m : SdManager) (svc : Service)
    (hraw : svc.systemdRaw = "") :
    ∃ pre post, generateServiceFile m svc =
      pre ++ ("\nExecStart=" ++ effectiveExecCommand m svc ++ "\nRestart=") ++ post := by
  rw [generateServiceFile_eq m svc hraw]
  by_cases ho : (blueprintResolve m svc).2.2.2 ≠ ""
  · rw [if_pos ho, unitTemplateOverrides_decomp]
    exact ⟨_, _, rfl⟩
  · rw [if_neg ho, unitTemplateStandard_decomp]
    exact ⟨_, _, rfl⟩

/-! ## Claims -/

/-- C3 (counterexample): on the registry `NewRegistry` builds at startup,
`Get` reports the relational-database type "postgres" and the key-value type
"redis" as absent, contradicting the claim that all three specified built-in
types are present. -/
theorem c3_counterexample :
    ((newRegistry decodeNothing).get "postgres").isSome = false ∧
    ((newRegistry decodeNothing).get "redis").isSome = false :=
  ⟨rfl, rfl⟩

/-- C3 (amended): on the startup registry, `Registry.Get` returns
present=true for "django" only; the postgres and redis blueprints exist in
the source but `NewRegistry` never registers them, so `Get` returns
present=false for "postgres" and "redis". -/
theorem c3_registry_django_only (dec : DjangoDecoder) :
    ((newRegistry dec).get "django").isSome = true ∧
    ((newRegistry dec).get "postgres").isSome = false ∧
    ((newRegistry dec).get "redis").isSome = false :=
  ⟨rfl, rfl, rfl⟩

/-- C4 (counterexample): for a project with a domain and one service on port
8080, the generated site config does not contain the upstream server line
`server 127.0.0.1:8080;` the claim requires — the upstream entries are built
but dropped — although the `location /` block does proxy to that port. -/
theorem c4_counterexample :
    (generateSiteConfig projPorted).toOption.map
        (fun cfg => goContains cfg "server 127.0.0.1:8080;") = some false ∧
    (generateSiteConfig projPorted).toOption.map
        (fun cfg => goContains cfg "proxy_pass http://127.0.0.1:8080;") =
      some true := by
  set_option maxRecDepth 100000 in
  set_option maxHeartbeats 1000000 in
  exact ⟨by decide, by decide⟩

/-- C4 (amended): for every project with empty `nginx_raw`, site generation
fails exactly when the domain is empty; `primary_port` is the port of the
first service in stored order with a positive port, or 8000 when none has
one, and the generated config proxies `location /` to
`127.0.0.1:<primary_port>`.  The per-service upstream comment and server
lines are computed but do not appear in the output. -/
theorem c4_site_generation (p : Project) (hraw : p.nginxRaw = "") :
    (generateSiteConfig p = Except.error "project has no domain configured" ↔
      p.domain = "") ∧
    primaryPortOf p.services =
      (match p.services.find? (fun s => s.port > 0) with
        | some s => s.port
        | none => 8000) ∧
    (p.domain ≠ "" → ∃ pre post, generateSiteConfig p =
      Except.ok (pre ++
        ("    location / \x7b\n        proxy_pass http://127.0.0.1:" ++
          toString (primaryPortOf p.services) ++ ";\n") ++ post)) := by
  have hsg : generateSiteConfig p = generateDefaultConfig p := by
    simp [generateSiteConfig, hraw]
  refine ⟨?_, primaryPortOf_eq p.services, ?_⟩
  · constructor
    · intro h
      by_contra hd
      rw [hsg, generateDefaultConfig_ok p hd] at h
      cases h
    · intro h
      rw [hsg]
      simp [generateDefaultConfig, h]
  · intro hdom
    refine ⟨siteConfigHeader p,
      "        proxy_http_version 1.1;\n" ++
        "        proxy_set_header Host $host;\n" ++
        "        proxy_set_header X-Real-IP $remote_addr;\n" ++
        "        proxy_set_header X-Forwarded-For $proxy_add_x_forwarded_for;\n" ++
        "        proxy_set_header X-Forwarded-Proto $scheme;\n" ++
        "        proxy_set_header Upgrade $http_upgrade;\n" ++
        "        proxy_set_header Connection \"upgrade\";\n" ++
        "        proxy_read_timeout 86400;\n    \x7d" ++
        "\n\n" ++ staticLocation ++ siteConfigTail, ?_⟩
    rw [hsg, generateDefaultConfig_ok p hdom]
    simp only [Except.ok.injEq]
    simp only [proxyLocation, String.append_assoc]

/-- C4 (witness): the ported project routes `location /` to its single
service port 8080. -/
theorem c4_site_generation_witness :
    projPorted.nginxRaw = "" ∧ projPorted.domain ≠ "" ∧
    primaryPortOf projPorted.services = 8080 ∧
    (∃ pre post, generateSiteConfig projPorted =
      Except.ok (pre ++
        ("    location / \x7b\n        proxy_pass http://127.0.0.1:" ++
          toString (8080 : Int) ++ ";\n") ++ post)) := by
  have h := c4_site_generation projPorted rfl
  have hpp : primaryPortOf projPorted.services = 8080 := by decide
  refine ⟨rfl, by decide, hpp, ?_⟩
  obtain ⟨pre, post, hp⟩ := h.2.2 (by decide)
  rw [hpp] at hp
  exact ⟨pre, post, hp⟩

/-- C5: for every service whose `systemd_raw` field is non-empty,
`GenerateServiceFile` returns exactly that text, whatever the manager's
blueprint registry and the service's other fields hold. -/
theorem c5_systemd_raw_supremacy (m : SdManager) (svc : Service)
    (h : svc.systemdRaw ≠ "") :
    generateServiceFile m svc = svc.systemdRaw := by
  unfold generateServiceFile
  rw [if_pos h]

/-- C5 (witness): a concrete service with a raw override is returned
verbatim by the synthesizer. -/
theorem c5_systemd_raw_supremacy_witness :
    svcRaw.systemdRaw ≠ "" ∧
    generateServiceFile { blueprints := none } svcRaw = svcRaw.systemdRaw := by
  refine ⟨by decide, c5_systemd_raw_supremacy _ _ (by decide)⟩

/-- C8: for a unit not yet in the CPU cache, the first observation the
per-unit loop of `GetStats` makes reports a CPU percentage of 0, and a
second observation with cumulative nanoseconds ns1 < ns2 (within uint64
range) at times t1 < t2 reports `100 * (ns2 - ns1) / (t2 - t1)`. -/
theorem c8_cpu_derivative (cache : CpuCache) (name : String) (q1 q2 : UnitQuery)
    (hfresh : cpuCacheLoad cache name = none)
    (hns : q1.cpuNS < q2.cpuNS) (hrange : q2.cpuNS < 2 ^ 64)
    (ht : q1.time < q2.time) :
    getLinuxServiceStats cache [(name, some q1)] =
      ([(name, (observeUnit cache name q1).1)], (observeUnit cache name q1).2) ∧
    getLinuxServiceStats (observeUnit cache name q1).2 [(name, some q2)] =
      ([(name, (observeUnit (observeUnit cache name q1).2 name q2).1)],
        (observeUnit (observeUnit cache name q1).2 name q2).2) ∧
    (observeUnit cache name q1).1.cpuUsage = 0 ∧
    (observeUnit (observeUnit cache name q1).2 name q2).1.cpuUsage =
      100 * ((q2.cpuNS : ℚ) - (q1.cpuNS : ℚ)) /
        ((q2.time : ℚ) - (q1.time : ℚ)) := by
  refine ⟨by simp [getLinuxServiceStats], by simp [getLinuxServiceStats],
    by simp [observeUnit, hfresh], ?_⟩
  have hload : cpuCacheLoad (cpuCacheStore cache name q1.cpuNS q1.time) name =
      some (q1.cpuNS, q1.time) := cpuCacheLoad_store cache name q1.cpuNS q1.time
  simp only [observeUnit, hload]
  have hd1 : (q2.cpuNS + 2 ^ 64 - q1.cpuNS) % 2 ^ 64 = q2.cpuNS - q1.cpuNS := by
    have h1 : q2.cpuNS + 2 ^ 64 - q1.cpuNS = (q2.cpuNS - q1.cpuNS) + 2 ^ 64 := by
      omega
    rw [h1, Nat.add_mod_right, Nat.mod_eq_of_lt (by omega)]
  rw [hd1]
  have hdt : (0 : Int) < q2.time - q1.time := by omega
  rw [if_pos hdt]
  have hc : ((q2.cpuNS - q1.cpuNS : ℕ) : ℚ) = (q2.cpuNS : ℚ) - (q1.cpuNS : ℚ) :=
    Nat.cast_sub (le_of_lt hns)
  have hti : (((q2.time - q1.time : ℤ)) : ℚ) = (q2.time : ℚ) - (q1.time : ℚ) := by
    push_cast
    ring
  rw [hc, hti]
  ring

/-- C8 (witness): two concrete observations 2000 ns apart over 1000 ns of
wall time yield 200 percent. -/
theorem c8_cpu_derivative_witness :
    cpuCacheLoad [] "servio-web.service" = none ∧
    (observeUnit [] "servio-web.service"
      { cpuNS := 1000, memBytes := 0, activeState := "active", time := 0 }).1.cpuUsage
        = 0 ∧
    (observeUnit
      (observeUnit [] "servio-web.service"
        { cpuNS := 1000, memBytes := 0, activeState := "active", time := 0 }).2
      "servio-web.service"
      { cpuNS := 3000, memBytes := 0, activeState := "active", time := 1000 }).1.cpuUsage
        = 200 := by
  have h := c8_cpu_derivative [] "servio-web.service"
    { cpuNS := 1000, memBytes := 0, activeState := "active", time := 0 }
    { cpuNS := 3000, memBytes := 0, activeState := "active", time := 1000 }
    rfl (by norm_num) (by norm_num) (by norm_num)
  refine ⟨rfl, h.2.2.1, ?_⟩
  rw [h.2.2.2]
  norm_num

/-- C9 (counterexample): when removing the unit file fails with an error
other than ENOENT, `UninstallService` returns without attempting the
supervisor reload, contradicting the claim that all three steps run
unconditionally. -/
theorem c9_counterexample :
    (uninstallService
        { stopErr := none, disableErr := none
          removeRes := RemoveOutcome.failed "permission denied"
          reloadErr := none } "servio-web.service").reloadAttempted = false ∧
    (uninstallService
        { stopErr := none, disableErr := none
          removeRes := RemoveOutcome.failed "permission denied"
          reloadErr := none } "servio-web.service").result =
      some "failed to remove service file: permission denied" :=
  ⟨rfl, rfl⟩

/-- C9 (amended): `UninstallService` always attempts the best-effort stop and
disable (their errors ignored) and the unit-file removal, treats ENOENT as
success; the reload runs only when removal succeeded or the file was missing,
and the first fatal error encountered (removal, else reload) is returned. -/
theorem c9_uninstall_steps (w : UninstallWorld) (n : String) :
    (uninstallService w n).stopAttempted = true ∧
    (uninstallService w n).disableAttempted = true ∧
    (uninstallService w n).removeAttempted = true ∧
    (w.removeRes = RemoveOutcome.enoent →
      (uninstallService w n).reloadAttempted = true ∧
      (uninstallService w n).result = w.reloadErr) ∧
    (w.removeRes = RemoveOutcome.ok →
      (uninstallService w n).reloadAttempted = true ∧
      (uninstallService w n).result = w.reloadErr) ∧
    (∀ msg, w.removeRes = RemoveOutcome.failed msg →
      (uninstallService w n).reloadAttempted = false ∧
      (uninstallService w n).result =
        some ("failed to remove service file: " ++ msg)) := by
  cases hr : w.removeRes <;> simp [uninstallService, hr]

/-- C9 (witness): concrete runs showing the ENOENT-tolerant path reloads and
the fatal-removal path returns the removal error. -/
theorem c9_uninstall_steps_witness :
    (uninstallService
        { stopErr := some "stop failed", disableErr := some "disable failed"
          removeRes := RemoveOutcome.enoent, reloadErr := none }
        "servio-web.service").reloadAttempted = true ∧
    (uninstallService
        { stopErr := none, disableErr := none
          removeRes := RemoveOutcome.failed "denied", reloadErr := none }
        "servio-web.service").result =
      some "failed to remove service file: denied" :=
  ⟨((c9_uninstall_steps _ _).2.2.2.1 rfl).1,
   ((c9_uninstall_steps _ _).2.2.2.2.2 "denied" rfl).2⟩

/-- C1 (counterexample): under the debian-style layout, when the proxy
configuration test fails, `InstallSite` removes only the written site file —
the sites-enabled symlink remains on disk — contradicting the claim that the
symlink has been removed when the function returns. -/
theorem c1_counterexample :
    mgrDeb.sitesEnabledDir = "/etc/nginx/sites-enabled" ∧
    (installSite mgrDeb worldTestFail projRaw []).err =
      some "nginx config test failed: config test failed: boom" ∧
    (installSite mgrDeb worldTestFail projRaw []).reloadAttempted = false ∧
    "/etc/nginx/sites-enabled/servio-1-alpha.conf" ∈
      (installSite mgrDeb worldTestFail projRaw []).files := by
  set_option maxRecDepth 100000 in
  exact ⟨rfl, by decide, by decide, by decide⟩

/-- C1 (amended): when the preparatory steps succeed and the proxy
configuration test fails, `InstallSite` leaves the site file removed from
disk, does not attempt the reload, and returns an error carrying the test
output; the sites-enabled symlink, however, is not removed (it is still
present under the debian layout when it was created and aliases nothing
else).  When the test passes, the reload is invoked. -/
theorem c1_install_site (m : NginxManager) (w : SiteWorld) (p : Project)
    (fs0 : List String)
    (hgen : (generateSiteConfig p).isOk = true)
    (hmk : w.mkdirErr = none) (hwr : w.writeErr = none)
    (hsym : m.sitesEnabledDir = "" ∨ w.symlinkErr = none) :
    (∀ output, w.testErr = some output →
      siteConfigPath m p ∉ (installSite m w p fs0).files ∧
      (installSite m w p fs0).reloadAttempted = false ∧
      (installSite m w p fs0).err =
        some ("nginx config test failed: config test failed: " ++ output)) ∧
    (∀ output, w.testErr = some output → m.sitesEnabledDir ≠ "" →
      w.symlinkErr = none →
      goFilepathJoin m.sitesEnabledDir (goFilepathBase (siteConfigPath m p)) ≠
        siteConfigPath m p →
      goFilepathJoin m.sitesEnabledDir (goFilepathBase (siteConfigPath m p)) ∈
        (installSite m w p fs0).files) ∧
    (w.testErr = none → (installSite m w p fs0).reloadAttempted = true) := by
  obtain ⟨cfg, hc⟩ : ∃ c, generateSiteConfig p = Except.ok c := by
    cases hg : generateSiteConfig p with
    | error e => rw [hg] at hgen; simp [Except.isOk, Except.toBool] at hgen
    | ok c => exact ⟨c, rfl⟩
  by_cases henl : m.sitesEnabledDir = ""
  · refine ⟨?_, ?_, ?_⟩
    · intro out hto
      simp only [installSite, hc, hmk, hwr, hto, henl, ne_eq,
        not_true_eq_false, if_false]
      exact ⟨fsRemove_not_mem _ _, by trivial, by trivial⟩
    · intro out _ hdir _ _
      exact absurd henl hdir
    · intro hto
      simp only [installSite, hc, hmk, hwr, hto, henl, ne_eq,
        not_true_eq_false, if_false]
      cases w.reloadErr <;> rfl
  · have hse : w.symlinkErr = none := hsym.resolve_left henl
    refine ⟨?_, ?_, ?_⟩
    · intro out hto
      simp only [installSite, hc, hmk, hwr, hto, hse, henl, ne_eq,
        not_false_eq_true, if_true]
      exact ⟨fsRemove_not_mem _ _, by trivial, by trivial⟩
    · intro out hto _ _ hne
      simp only [installSite, hc, hmk, hwr, hto, hse, henl, ne_eq,
        not_false_eq_true, if_true]
      exact (fsRemove_mem_of_ne hne _).mpr (fsAdd_mem _ _)
    · intro hto
      simp only [installSite, hc, hmk, hwr, hto, hse, henl, ne_eq,
        not_false_eq_true, if_true]
      cases w.reloadErr <;> rfl

/-- C1 (witness): the debian-layout fixture with a failing config test hits
the rollback branch of the theorem. -/
theorem c1_install_site_witness :
    (generateSiteConfig projRaw).isOk = true ∧
    worldTestFail.testErr = some "boom" ∧
    siteConfigPath mgrDeb projRaw ∉
      (installSite mgrDeb worldTestFail projRaw []).files ∧
    (installSite mgrDeb worldTestFail projRaw []).reloadAttempted = false := by
  have h := c1_install_site mgrDeb worldTestFail projRaw [] rfl rfl rfl
    (Or.inr rfl)
  have h1 := h.1 "boom" rfl
  exact ⟨rfl, rfl, h1.1, h1.2.1⟩

/-- C2 (counterexample): a PUT of a django service whose submitted command
equals exactly what the blueprint would generate for the updated service
stores that command unchanged (not the empty string) and never restarts the
unit, contradicting both halves of the claim. -/
theorem c2_counterexample :
    ((newRegistry decodeNothing).get (applyUpdate svcDj reqPut).serviceType).isSome
        = true ∧
    (djangoBlueprint decodeNothing).generateCommand (applyUpdate svcDj reqPut)
        = reqPut.command ∧
    (handleApiServicePut svcDj reqPut none).1.command = djangoDefaultCommand ∧
    (handleApiServicePut svcDj reqPut none).1.command ≠ "" ∧
    UpdateAction.restartUnit (applyUpdate svcDj reqPut).unitName ∉
      (handleApiServicePut svcDj reqPut none).2.1 := by
  refine ⟨rfl, rfl, rfl, by decide, by decide⟩

/-- C2 (amended): command clearing happens only in the HTML edit handler,
which compares the submitted command against the blueprint generation for
the old record with only the submitted port applied before clearing, then
reinstalls and restarts with neither failure affecting the redirect
response; the PUT /api/services/{id} handler stores the submitted command
unchanged and only reinstalls — no restart — with the install outcome not
affecting the JSON response. -/
theorem c2_update_handlers (r : Registry) (old : Service) (f : EditFormInput)
    (req : UpdateServiceRequest) (bp : Blueprint)
    (instErr rstErr instErr2 : Option String)
    (hbp : r.get old.serviceType = some bp)
    (hmatch : f.command = bp.generateCommand { old with port := f.port }) :
    (handleServiceEditPost r old f instErr rstErr).1.command = "" ∧
    (handleServiceEditPost r old f instErr rstErr).2.1 =
      [UpdateAction.installUnit (handleServiceEditPost r old f instErr rstErr).1,
       UpdateAction.restartUnit
         (handleServiceEditPost r old f instErr rstErr).1.unitName] ∧
    (handleServiceEditPost r old f instErr rstErr).2.2 =
      HtResponse.seeOther ("/projects/" ++ toString old.projectID) ∧
    (handleApiServicePut old req instErr2).1.command = req.command ∧
    (handleApiServicePut old req instErr2).2.1 =
      [UpdateAction.installUnit (applyUpdate old req)] ∧
    (handleApiServicePut old req instErr2).2.2 =
      HtResponse.jsonOk (applyUpdate old req) := by
  unfold handleServiceEditPost handleApiServicePut
  simp [hbp, hmatch, applyUpdate]

/-- C2 (witness): the same submission through the edit form clears the
stored command even with both follow-up steps failing. -/
theorem c2_update_handlers_witness :
    (newRegistry decodeNothing).get svcDj.serviceType =
      some (djangoBlueprint decodeNothing) ∧
    formPut.command =
      (djangoBlueprint decodeNothing).generateCommand { svcDj with port := formPut.port } ∧
    (handleServiceEditPost (newRegistry decodeNothing) svcDj formPut
        (some "install failed") (some "restart failed")).1.command = "" := by
  refine ⟨rfl, rfl, ?_⟩
  exact (c2_update_handlers (newRegistry decodeNothing) svcDj formPut reqPut
    (djangoBlueprint decodeNothing) (some "install failed")
    (some "restart failed") none rfl rfl).1

/-- C6: for every service with empty `systemd_raw`, empty `command` and a
type registered in the startup blueprint registry, the effective ExecStart
command of the synthesized unit equals `blueprint.GenerateCommand(service)`
with no relative-path resolution applied, and the unit file carries it on its
ExecStart line. -/
theorem c6_blueprint_exec_command (dec : DjangoDecoder) (svc : Service)
    (bp : Blueprint)
    (hraw : svc.systemdRaw = "") (hcmd : svc.command = "")
    (hget : (newRegistry dec).get svc.serviceType = some bp) :
    effectiveExecCommand { blueprints := some (newRegistry dec) } svc =
      bp.generateCommand svc ∧
    ∃ pre post,
      generateServiceFile { blueprints := some (newRegistry dec) } svc =
        pre ++ ("\nExecStart=" ++ bp.generateCommand svc ++ "\nRestart=") ++ post := by
  have ht : svc.serviceType = "django" := by
    rw [newRegistry_get] at hget
    by_cases h : svc.serviceType = "django"
    · exact h
    · rw [if_neg h] at hget; cases hget
  have hbp : bp = djangoBlueprint dec := by
    rw [newRegistry_get, if_pos ht] at hget
    exact (Option.some.inj hget).symm
  have hr : blueprintResolve { blueprints := some (newRegistry dec) } svc =
      (true, bp.generateCommand svc,
        (if bp.generateEnvironment svc ≠ "" then
           (if svc.environment ≠ "" then
              bp.generateEnvironment svc ++ "\n" ++ svc.environment
            else bp.generateEnvironment svc)
         else svc.environment),
        bp.generateSystemdOverrides svc) := by
    unfold blueprintResolve
    simp only [ht]
    rw [if_pos (by decide : ("django" : String) ≠ "")]
    rw [newRegistry_get]
    simp [hcmd, hbp]
  have h1 : effectiveExecCommand { blueprints := some (newRegistry dec) } svc =
      bp.generateCommand svc := by
    unfold effectiveExecCommand
    rw [hr]
    exact resolveExec_of_blueprint _ _
  refine ⟨h1, ?_⟩
  have hd := generateServiceFile_execStart
    { blueprints := some (newRegistry dec) } svc hraw
  rw [h1] at hd
  exact hd

/-- C6 (witness): a concrete django-typed service with empty command gets
the blueprint-generated gunicorn command as its effective ExecStart. -/
theorem c6_blueprint_exec_command_witness :
    svcDj.systemdRaw = "" ∧ svcDj.command = "" ∧
    (newRegistry decodeNothing).get svcDj.serviceType =
      some (djangoBlueprint decodeNothing) ∧
    effectiveExecCommand { blueprints := some (newRegistry decodeNothing) } svcDj =
      djangoDefaultCommand := by
  refine ⟨rfl, rfl, rfl, ?_⟩
  have h := c6_blueprint_exec_command decodeNothing svcDj
    (djangoBlueprint decodeNothing) rfl rfl rfl
  rw [h.1]
  rfl

/-- C7: for every service with empty `systemd_raw`, no blueprint in effect
and a command that is its first whitespace-separated token followed by a
remainder, where the token does not begin with a slash, the ExecStart
command is `filepath.Join(working_dir, token)` followed by that remainder,
with `working_dir` defaulting to "/" when empty
(`effectiveWorkingDir`). -/
theorem c7_relative_command (m : SdManager) (svc : Service) (tok rest : String)
    (hraw : svc.systemdRaw = "")
    (hnb : (blueprintResolve m svc).1 = false)
    (hsplit : svc.command = tok ++ rest)
    (hfield : (goFields svc.command).head? = some tok)
    (habs : goStartsWith tok "/" = false) :
    effectiveExecCommand m svc =
      goFilepathJoin (effectiveWorkingDir svc) tok ++ rest ∧
    ∃ pre post, generateServiceFile m svc =
      pre ++ ("\nExecStart=" ++
        (goFilepathJoin (effectiveWorkingDir svc) tok ++ rest) ++
        "\nRestart=") ++ post := by
  have hres := blueprintResolve_of_none hnb
  have htok : tok ≠ "" := goFields_head_ne_empty hfield
  obtain ⟨ts, hts⟩ : ∃ ts, goFields svc.command = tok :: ts := by
    cases hgf : goFields svc.command with
    | nil => rw [hgf] at hfield; cases hfield
    | cons a l =>
      rw [hgf] at hfield
      simp only [List.head?_cons, Option.some.injEq] at hfield
      exact ⟨l, by rw [hfield]⟩
  have h1 : effectiveExecCommand m svc =
      goFilepathJoin (effectiveWorkingDir svc) tok ++ rest := by
    unfold effectiveExecCommand
    rw [hres]
    show resolveExecCommand false (effectiveWorkingDir svc) svc.command = _
    unfold resolveExecCommand
    rw [hts]
    simp only [habs, Bool.not_false, Bool.and_self, if_true]
    rw [hsplit]
    exact goReplaceFirst_at_head tok rest _ htok
  refine ⟨h1, ?_⟩
  have hd := generateServiceFile_execStart m svc hraw
  rw [h1] at hd
  exact hd

/-- C7 (witness): the relative command "run.sh serve" under working
directory /opt/app resolves to /opt/app/run.sh serve. -/
theorem c7_relative_command_witness :
    svcRel.command = "run.sh" ++ " serve" ∧
    (goFields svcRel.command).head? = some "run.sh" ∧
    effectiveExecCommand { blueprints := none } svcRel =
      "/opt/app/run.sh serve" := by
  refine ⟨rfl, by decide, ?_⟩
  have h := c7_relative_command { blueprints := none } svcRel "run.sh" " serve"
    rfl rfl rfl (by decide) (by decide)
  rw [h.1]
  decide

/-- C10: the GET handler labels an existing service "running" exactly when
the supervisor reports it active, "stopped" exactly when it is inactive but
its unit file exists, and "not installed" exactly when the unit file does
not exist. -/
theorem c10_status_label (svc : Service) (active fileExists : Bool) :
    ((handleApiServiceGet svc active fileExists).status = "running" ↔
      active = true) ∧
    ((handleApiServiceGet svc active fileExists).status = "stopped" ↔
      (active = false ∧ fileExists = true)) ∧
    ((handleApiServiceGet svc active fileExists).status = "not installed" ↔
      (active = false ∧ fileExists = false)) := by
  cases active <;> cases fileExists <;>
    simp [handleApiServiceGet, serviceStatusLabel]

end Servio
